import Mathlib

/-
Verification of the inventory / sales-reservation manager
(`PF SUMINISTROS TECNOLOGICOS`): a shallow embedding of the data model
(models.py) and of the core operations of main.py, together with proofs
about the stock-reservation lifecycle.
Quantities are Python ints, modelled as `Int`; prices are Python floats,
modelled as exact rationals `ℚ`; timestamps are seconds, modelled as `Int`.
-/

namespace Suministros

/-- Roles of a `Usuario` (main.py distinguishes the strings 'admin' and 'cliente'). -/
inductive Rol
  | admin
  | cliente
deriving DecidableEq

/-- The `estado` column of `Pedido` (models.py line 57): 'pendiente', 'completado', 'cancelado'. -/
inductive Estado
  | pendiente
  | completado
  | cancelado
deriving DecidableEq

/-- The `tipo` column of `Pedido`: 'venta' or 'compra'. -/
inductive Tipo
  | venta
  | compra
deriving DecidableEq

/-- models.py `Usuario` (credential fields omitted: out of scope). -/
structure Usuario where
  id : Nat
  rol : Rol
  activo : Bool
deriving DecidableEq

/-- models.py `Producto` (string fields omitted; numeric state kept). -/
structure Producto where
  id : Nat
  precio_coste : ℚ
  precio_venta : ℚ
  cantidad_actual : Int
  stock_maximo : Int
deriving DecidableEq

/-- models.py `Pedido`: one stock movement record. -/
structure Pedido where
  id : Nat
  fecha : Int
  cantidad : Int
  precio_unidad_coste : ℚ
  precio_unidad_venta : ℚ
  total_venta : ℚ
  descuento_aplicado : ℚ
  iva_aplicado : ℚ
  tipo : Tipo
  estado : Estado
  usuario_id : Nat
  producto_id : Nat
deriving DecidableEq

/-- The whole persisted database state. -/
structure State where
  usuarios : List Usuario
  productos : List Producto
  pedidos : List Pedido
deriving DecidableEq

/-- The failure modes of the core operations (each is a flash + redirect
with no commit in main.py). `crash` stands for an unhandled exception
(also no commit). -/
inductive Err
  | notFound
  | stockInsuficiente
  | clienteNoValido
  | permisoDenegado
  | cantidadInvalida
  | excedeMaximo
  | validacion
  | crash
deriving DecidableEq

/-- main.py line 18: `IVA_DEFECTO = 21.0`. -/
def IVA_DEFECTO : ℚ := 21

/-- Update the first record whose primary key matches (SQLAlchemy
`query.get` fetches one row by primary key, and mutation touches only
that row). -/
def updateFirst {α : Type} (key : α → Nat) : List α → Nat → (α → α) → List α
  | [], _, _ => []
  | x :: rest, k, f => if key x = k then f x :: rest else x :: updateFirst key rest k f

/-- `Producto.query.get(producto_id)`. -/
def findProducto (s : State) (pid : Nat) : Option Producto :=
  s.productos.find? (fun pr => pr.id == pid)

/-- `Pedido.query.get(id)`. -/
def findPedido (s : State) (i : Nat) : Option Pedido :=
  s.pedidos.find? (fun p => p.id == i)

/-- main.py lines 497-499: a discount outside [0,100] is clamped to 0. -/
def clampDescuento (d : ℚ) : ℚ := if d < 0 ∨ 100 < d then 0 else d

/-- main.py lines 502-504: a tax percentage outside [0,100] falls back to the default. -/
def resolverIva (i : ℚ) : ℚ := if i < 0 ∨ 100 < i then IVA_DEFECTO else i

/-- main.py lines 507-508: strip the stored default tax from the
tax-inclusive `precio_venta` and re-apply the requested tax. No rounding
is performed at any step. -/
def precioConNuevoIva (precio_venta iva_venta : ℚ) : ℚ :=
  precio_venta / (1 + IVA_DEFECTO / 100) * (1 + iva_venta / 100)

/-- main.py line 517: `Usuario.query.filter_by(id=cid, rol='cliente', activo=True).first()` is not None. -/
def esClienteValido (s : State) (cid : Nat) : Bool :=
  s.usuarios.any (fun u => u.id == cid && u.rol == Rol.cliente && u.activo)

/-- main.py lines 512-527: an admin may direct the sale to a validated
active client (failing otherwise); everyone else books it on themself. -/
def resolverDestino (s : State) (caller : Usuario) (cliente_id : Option Nat) : Except Err Nat :=
  if caller.rol = Rol.admin then
    match cliente_id with
    | some cid => if esClienteValido s cid then .ok cid else .error .clienteNoValido
    | none => .ok caller.id
  else .ok caller.id

/-- main.py lines 530-541: the pending sale record created by `realizar_venta`,
with already clamped/resolved `desc` and `iva`. The persisted unit sale
price is the pre-discount `precio_con_nuevo_iva`; the discount enters only
the total. -/
def nuevoPedidoVenta (pr : Producto) (cantidad : Int) (desc iva : ℚ) (dest : Nat)
    (fecha : Int) (newId : Nat) : Pedido :=
  { id := newId, fecha := fecha, cantidad := cantidad,
    precio_unidad_coste := pr.precio_coste,
    precio_unidad_venta := precioConNuevoIva pr.precio_venta iva,
    total_venta := precioConNuevoIva pr.precio_venta iva * (1 - desc / 100) * (cantidad : ℚ),
    descuento_aplicado := desc, iva_aplicado := iva,
    tipo := Tipo.venta, estado := Estado.pendiente,
    usuario_id := dest, producto_id := pr.id }

/-- main.py lines 484-548, `realizar_venta` (create_sale): look the product
up, fail on insufficient stock, clamp discount / resolve tax, resolve the
target user, then decrement stock and append one pending sale record. -/
def realizar_venta (s : State) (caller : Usuario) (producto_id : Nat) (cantidad : Int)
    (descuento_form iva_form : ℚ) (cliente_id : Option Nat) (fecha : Int) (newId : Nat) :
    Except Err State :=
  match findProducto s producto_id with
  | none => .error .notFound
  | some producto =>
    if producto.cantidad_actual < cantidad then .error .stockInsuficiente
    else
      match resolverDestino s caller cliente_id with
      | .error e => .error e
      | .ok usuario_destino =>
        .ok { s with
          productos := updateFirst Producto.id s.productos producto.id
            (fun x => { x with cantidad_actual := x.cantidad_actual - cantidad }),
          pedidos := s.pedidos ++
            [nuevoPedidoVenta producto cantidad (clampDescuento descuento_form)
              (resolverIva iva_form) usuario_destino fecha newId] }

/-- main.py lines 808-817, `confirmar_entrega`: fetch by id (404 only when
the id is missing) and unconditionally set the state to 'completado' —
there is no guard on kind or current state, and no stock change. -/
def confirmar_entrega (s : State) (i : Nat) : Except Err State :=
  match findPedido s i with
  | none => .error .notFound
  | some _ =>
    .ok { s with
      pedidos := updateFirst Pedido.id s.pedidos i
        (fun p => { p with estado := Estado.completado }) }

/-- main.py lines 819-839, `cancelar_reserva`: only an admin or the owner
may cancel; a pending record has its quantity returned to the product
(when the product still exists) and is marked 'cancelado'; a non-pending
record is silently left untouched. -/
def cancelar_reserva (s : State) (caller : Usuario) (pedido_id : Nat) : Except Err State :=
  match findPedido s pedido_id with
  | none => .error .notFound
  | some reserva =>
    if caller.rol ≠ Rol.admin ∧ reserva.usuario_id ≠ caller.id then .error .permisoDenegado
    else if reserva.estado = Estado.pendiente then
      .ok { s with
        productos := updateFirst Producto.id s.productos reserva.producto_id
          (fun x => { x with cantidad_actual := x.cantidad_actual + reserva.cantidad }),
        pedidos := updateFirst Pedido.id s.pedidos pedido_id
          (fun p => { p with estado := Estado.cancelado }) }
    else .ok s

/-- main.py line 53: the expiry cutoff, 48 hours before now (seconds). -/
def limiteExpiracion (ahora : Int) : Int := ahora - 48 * 3600

/-- main.py line 55: the filter `estado='pendiente', tipo='venta', fecha < limite`. -/
def expirado (limite : Int) (p : Pedido) : Bool :=
  p.estado == Estado.pendiente && p.tipo == Tipo.venta && decide (p.fecha < limite)

/-- main.py lines 57-60: for each expired reservation in turn, return its
quantity to its product (skipped when the product row is gone). -/
def restaurarExpirados (productos : List Producto) (rs : List Pedido) : List Producto :=
  rs.foldl
    (fun ps r => updateFirst Producto.id ps r.producto_id
      (fun x => { x with cantidad_actual := x.cantidad_actual + r.cantidad }))
    productos

/-- main.py lines 52-64, `limpiar_reservas_expiradas`: select the pending
sale records older than the 48h cutoff, restore the stock of each and mark
them all 'cancelado'. -/
def limpiar_reservas_expiradas (s : State) (ahora : Int) : State :=
  { s with
    productos := restaurarExpirados s.productos
      (s.pedidos.filter (expirado (limiteExpiracion ahora))),
    pedidos := s.pedidos.map
      (fun p => if expirado (limiteExpiracion ahora) p
        then { p with estado := Estado.cancelado } else p) }

/-- main.py lines 916-958, `reabastecer_producto` (restock, admin only):
reject a non-positive quantity, reject exceeding `stock_maximo`, otherwise
increment stock and append one 'compra' record whose `estado` is the
models.py default 'pendiente' (the route never sets it). -/
def reabastecer_producto (s : State) (caller_id : Nat) (producto_id : Nat)
    (cantidad_compra : Int) (fecha : Int) (newId : Nat) : Except Err State :=
  match findProducto s producto_id with
  | none => .error .notFound
  | some producto =>
    if cantidad_compra ≤ 0 then .error .cantidadInvalida
    else if producto.stock_maximo < producto.cantidad_actual + cantidad_compra then
      .error .excedeMaximo
    else
      .ok { s with
        productos := updateFirst Producto.id s.productos producto.id
          (fun x => { x with cantidad_actual := x.cantidad_actual + cantidad_compra }),
        pedidos := s.pedidos ++
          [{ id := newId, fecha := fecha, cantidad := cantidad_compra,
             precio_unidad_coste := producto.precio_coste,
             precio_unidad_venta := producto.precio_venta,
             total_venta := 0, descuento_aplicado := 0, iva_aplicado := IVA_DEFECTO,
             tipo := Tipo.compra, estado := Estado.pendiente,
             usuario_id := caller_id, producto_id := producto.id }] }

/-- main.py lines 431-478, `editar_producto` (numeric part): validate
non-negative prices and quantities and `cantidad ≤ maximo`, then overwrite
the product's numeric fields. -/
def editar_producto (s : State) (i : Nat) (nuevo_precio_coste nuevo_precio_venta : ℚ)
    (nueva_cantidad nuevo_maximo : Int) : Except Err State :=
  match findProducto s i with
  | none => .error .notFound
  | some _ =>
    if nuevo_precio_coste < 0 ∨ nuevo_precio_venta < 0 then .error .validacion
    else if nueva_cantidad < 0 ∨ nuevo_maximo < 0 then .error .validacion
    else if nuevo_maximo < nueva_cantidad then .error .validacion
    else
      .ok { s with
        productos := updateFirst Producto.id s.productos i
          (fun x => { x with
            precio_coste := nuevo_precio_coste, precio_venta := nuevo_precio_venta,
            cantidad_actual := nueva_cantidad, stock_maximo := nuevo_maximo }) }

/-- main.py lines 296-382, `nuevo_producto` (numeric part): validate the
tax, prices and quantities, fold the tax into both prices, add the product
and — when the initial stock is positive — one 'compra' record (again with
the default 'pendiente' estado). -/
def nuevo_producto (s : State) (caller_id : Nat)
    (p_coste_sin_iva p_venta_sin_iva iva_porcentaje : ℚ)
    (stock_inicial maximo : Int) (prodId pedidoId : Nat) (fecha : Int) : Except Err State :=
  if iva_porcentaje < 0 ∨ 100 < iva_porcentaje then .error .validacion
  else if p_coste_sin_iva < 0 ∨ p_venta_sin_iva < 0 then .error .validacion
  else if stock_inicial < 0 ∨ maximo < 0 then .error .validacion
  else if maximo < stock_inicial then .error .validacion
  else
    .ok { s with
      productos := s.productos ++
        [{ id := prodId,
           precio_coste := p_coste_sin_iva * (1 + iva_porcentaje / 100),
           precio_venta := p_venta_sin_iva * (1 + iva_porcentaje / 100),
           cantidad_actual := stock_inicial, stock_maximo := maximo }],
      pedidos :=
        if 0 < stock_inicial then
          s.pedidos ++
            [{ id := pedidoId, fecha := fecha, cantidad := stock_inicial,
               precio_unidad_coste := p_coste_sin_iva * (1 + iva_porcentaje / 100),
               precio_unidad_venta := p_venta_sin_iva * (1 + iva_porcentaje / 100),
               total_venta := 0, descuento_aplicado := 0, iva_aplicado := IVA_DEFECTO,
               tipo := Tipo.compra, estado := Estado.pendiente,
               usuario_id := caller_id, producto_id := prodId }]
        else s.pedidos }

/-- main.py lines 661-676: one cart line of `confirmar_carrito`: re-check
stock, append a pending sale record at the catalog price (no tax
recomputation written out; `descuento_aplicado` and `iva_aplicado` keep
their model defaults 0 and 21), and decrement stock. A missing product is
an unhandled `AttributeError` (`crash`), which aborts with no commit. -/
def confirmar_linea (s : State) (uid : Nat) (p_id : Nat) (cantidad : Int)
    (fecha : Int) (newId : Nat) : Except Err State :=
  match findProducto s p_id with
  | none => .error .crash
  | some producto =>
    if producto.cantidad_actual < cantidad then .error .stockInsuficiente
    else
      .ok { s with
        productos := updateFirst Producto.id s.productos producto.id
          (fun x => { x with cantidad_actual := x.cantidad_actual - cantidad }),
        pedidos := s.pedidos ++
          [{ id := newId, fecha := fecha, cantidad := cantidad,
             precio_unidad_coste := producto.precio_coste,
             precio_unidad_venta := producto.precio_venta,
             total_venta := producto.precio_venta * (cantidad : ℚ),
             descuento_aplicado := 0, iva_aplicado := IVA_DEFECTO,
             tipo := Tipo.venta, estado := Estado.pendiente,
             usuario_id := uid, producto_id := producto.id }] }

/-- main.py lines 654-679, `confirmar_carrito`: process the cart lines in
order; any failure aborts the whole request before the commit. -/
def confirmar_lineas : State → Nat → Int → List (Nat × Int) → Nat → Except Err State
  | s, _, _, [], _ => .ok s
  | s, uid, fecha, (p_id, cantidad) :: rest, newId =>
    match confirmar_linea s uid p_id cantidad fecha newId with
    | .error e => .error e
    | .ok s2 => confirmar_lineas s2 uid fecha rest (newId + 1)

/-- A failed request commits nothing: the database keeps its prior state. -/
def commit (s : State) : Except Err State → State
  | .ok s2 => s2
  | .error _ => s

instance {ε α : Type} [DecidableEq ε] [DecidableEq α] : DecidableEq (Except ε α) := fun a b =>
  match a, b with
  | .error e, .error f =>
    if h : e = f then isTrue (congrArg Except.error h)
    else isFalse (fun hh => h (Except.error.inj hh))
  | .ok x, .ok y =>
    if h : x = y then isTrue (congrArg Except.ok h)
    else isFalse (fun hh => h (Except.ok.inj hh))
  | .error _, .ok _ => isFalse (fun hh => Except.noConfusion hh)
  | .ok _, .error _ => isFalse (fun hh => Except.noConfusion hh)

/-- The committed core operations of the spec, with their request inputs. -/
inductive Op
  | venta (caller : Usuario) (producto_id : Nat) (cantidad : Int)
      (descuento iva : ℚ) (cliente_id : Option Nat) (fecha : Int) (newId : Nat)
  | cancelar (caller : Usuario) (pedido_id : Nat)
  | entrega (i : Nat)
  | limpiar (ahora : Int)
  | reabastecer (caller_id : Nat) (producto_id : Nat) (cantidad : Int)
      (fecha : Int) (newId : Nat)
  | editar (i : Nat) (pc pv : ℚ) (c m : Int)

/-- Run one request against the database; failures leave it unchanged. -/
def applyOp (s : State) : Op → State
  | .venta caller pid c d i cl f n => commit s (realizar_venta s caller pid c d i cl f n)
  | .cancelar caller pid => commit s (cancelar_reserva s caller pid)
  | .entrega i => commit s (confirmar_entrega s i)
  | .limpiar ahora => limpiar_reservas_expiradas s ahora
  | .reabastecer cid pid c f n => commit s (reabastecer_producto s cid pid c f n)
  | .editar i pc pv c m => commit s (editar_producto s i pc pv c m)

/-- A sequence of committed operations. -/
def run (s : State) (ops : List Op) : State := ops.foldl applyOp s

section Helpers

variable {α : Type} (key : α → Nat)

theorem mem_updateFirst {l : List α} {k : Nat} {f : α → α} :
    ∀ x ∈ updateFirst key l k f, x ∈ l ∨ ∃ y ∈ l, x = f y := by
  induction l with
  | nil => intro x hx; simp [updateFirst] at hx
  | cons a rest ih =>
    intro x hx
    by_cases hk : key a = k
    · simp only [updateFirst, if_pos hk, List.mem_cons] at hx
      rcases hx with h | h
      · exact Or.inr ⟨a, List.mem_cons_self a rest, h⟩
      · exact Or.inl (List.mem_cons_of_mem a h)
    · simp only [updateFirst, if_neg hk, List.mem_cons] at hx
      rcases hx with h | h
      · exact Or.inl (h ▸ List.mem_cons_self a rest)
      · rcases ih x h with h2 | ⟨y, hy, hxy⟩
        · exact Or.inl (List.mem_cons_of_mem a h2)
        · exact Or.inr ⟨y, List.mem_cons_of_mem a hy, hxy⟩

theorem updateFirst_of_find_none {l : List α} {k : Nat} (f : α → α)
    (h : l.find? (fun x => key x == k) = none) : updateFirst key l k f = l := by
  induction l with
  | nil => rfl
  | cons a rest ih =>
    rw [List.find?_cons] at h
    rcases hb : (key a == k) with _ | _
    · rw [hb] at h
      have hk : ¬ key a = k := by simpa using hb
      simp [updateFirst, if_neg hk, ih h]
    · rw [hb] at h; cases h

theorem updateFirst_of_find_some {l : List α} {k : Nat} {a : α} (f : α → α)
    (h : l.find? (fun x => key x == k) = some a) :
    ∀ x ∈ updateFirst key l k f, x ∈ l ∨ x = f a := by
  induction l with
  | nil => intro x hx; simp [updateFirst] at hx
  | cons b rest ih =>
    intro x hx
    rw [List.find?_cons] at h
    rcases hb : (key b == k) with _ | _
    · rw [hb] at h
      have hk : ¬ key b = k := by simpa using hb
      simp only [updateFirst, if_neg hk, List.mem_cons] at hx
      rcases hx with h1 | h1
      · exact Or.inl (h1 ▸ List.mem_cons_self b rest)
      · rcases ih h x h1 with h2 | h2
        · exact Or.inl (List.mem_cons_of_mem b h2)
        · exact Or.inr h2
    · rw [hb] at h
      have hk : key b = k := by simpa using hb
      have hab : a = b := by cases h; rfl
      simp only [updateFirst, if_pos hk, List.mem_cons] at hx
      rcases hx with h1 | h1
      · exact Or.inr (hab ▸ h1)
      · exact Or.inl (List.mem_cons_of_mem b h1)

theorem updateFirst_updateFirst {l : List α} {k : Nat} {f g : α → α}
    (hf : ∀ x, key (f x) = key x) :
    updateFirst key (updateFirst key l k f) k g = updateFirst key l k (fun x => g (f x)) := by
  induction l with
  | nil => rfl
  | cons a rest ih =>
    by_cases hk : key a = k
    · have : key (f a) = k := by rw [hf a]; exact hk
      simp [updateFirst, if_pos hk, if_pos this]
    · simp [updateFirst, if_neg hk, ih]

theorem updateFirst_id {l : List α} {k : Nat} :
    updateFirst key l k (fun x => x) = l := by
  induction l with
  | nil => rfl
  | cons a rest ih =>
    by_cases hk : key a = k
    · simp [updateFirst, if_pos hk]
    · simp [updateFirst, if_neg hk, ih]

theorem find?_append_of_none {p : α → Bool} {l1 l2 : List α}
    (h : ∀ x ∈ l1, p x = false) : (l1 ++ l2).find? p = l2.find? p := by
  induction l1 with
  | nil => rfl
  | cons a rest ih =>
    have ha : p a = false := h a (List.mem_cons_self a rest)
    simp only [List.cons_append, List.find?_cons, ha]
    exact ih (fun x hx => h x (List.mem_cons_of_mem a hx))

theorem updateFirst_append_right {l1 l2 : List α} {k : Nat} (f : α → α)
    (h : ∀ x ∈ l1, key x ≠ k) :
    updateFirst key (l1 ++ l2) k f = l1 ++ updateFirst key l2 k f := by
  induction l1 with
  | nil => rfl
  | cons a rest ih =>
    have ha : ¬ key a = k := h a (List.mem_cons_self a rest)
    simp only [List.cons_append, updateFirst, if_neg ha, List.cons.injEq, true_and]
    exact ih (fun x hx => h x (List.mem_cons_of_mem a hx))

theorem map_eq_self_of {β : Type} {l : List β} {f : β → β}
    (h : ∀ x ∈ l, f x = x) : l.map f = l := by
  induction l with
  | nil => rfl
  | cons a rest ih =>
    simp only [List.map_cons, h a (List.mem_cons_self a rest), List.cons.injEq, true_and]
    exact ih (fun x hx => h x (List.mem_cons_of_mem a hx))

theorem filter_eq_nil_of {β : Type} {l : List β} {p : β → Bool}
    (h : ∀ x ∈ l, p x = false) : l.filter p = [] := by
  induction l with
  | nil => rfl
  | cons a rest ih =>
    simp only [List.filter_cons, h a (List.mem_cons_self a rest), Bool.false_eq_true,
      if_false]
    exact ih (fun x hx => h x (List.mem_cons_of_mem a hx))

theorem map_key_updateFirst {l : List α} {k : Nat} {f : α → α}
    (hf : ∀ x, key (f x) = key x) :
    (updateFirst key l k f).map key = l.map key := by
  induction l with
  | nil => rfl
  | cons a rest ih =>
    by_cases hk : key a = k
    · simp [updateFirst, if_pos hk, hf]
    · simp [updateFirst, if_neg hk, ih]

theorem updateFirst_eq_map_of_nodup {l : List α} {k : Nat} {f : α → α}
    (hnd : (l.map key).Nodup) :
    updateFirst key l k f = l.map (fun x => if key x = k then f x else x) := by
  induction l with
  | nil => rfl
  | cons a rest ih =>
    simp only [List.map_cons, List.nodup_cons] at hnd
    by_cases hk : key a = k
    · have hrest : ∀ x ∈ rest, ¬ key x = k := by
        intro x hx hxk
        apply hnd.1
        rw [hk, ← hxk]
        exact List.mem_map_of_mem key hx
      simp only [updateFirst, if_pos hk, List.map_cons, if_pos hk, List.cons.injEq, true_and]
      exact (map_eq_self_of (fun x hx => by simp [if_neg (hrest x hx)])).symm
    · simp only [updateFirst, if_neg hk, List.map_cons, if_neg hk, List.cons.injEq, true_and]
      exact ih hnd.2

end Helpers

theorem find?_eq_some_pred {β : Type} {p : β → Bool} {l : List β} {a : β}
    (h : l.find? p = some a) : p a = true ∧ a ∈ l := by
  induction l with
  | nil => cases h
  | cons b rest ih =>
    rw [List.find?_cons] at h
    rcases hb : p b with _ | _
    · rw [hb] at h
      rcases ih h with ⟨h1, h2⟩
      exact ⟨h1, List.mem_cons_of_mem b h2⟩
    · rw [hb] at h
      have hba : b = a := Option.some.inj h
      subst hba
      exact ⟨hb, List.mem_cons_self b rest⟩

theorem findProducto_id {s : State} {pid : Nat} {pr : Producto}
    (h : findProducto s pid = some pr) : pr.id = pid ∧ pr ∈ s.productos := by
  rcases find?_eq_some_pred h with ⟨h1, h2⟩
  exact ⟨by simpa using h1, h2⟩

theorem findPedido_id {s : State} {i : Nat} {p : Pedido}
    (h : findPedido s i = some p) : p.id = i ∧ p ∈ s.pedidos := by
  rcases find?_eq_some_pred h with ⟨h1, h2⟩
  exact ⟨by simpa using h1, h2⟩

/-- Success inversion for `realizar_venta`: the exact shape of the committed state. -/
theorem realizar_venta_ok_inv {s s' : State} {caller : Usuario} {pid : Nat} {cantidad : Int}
    {d i : ℚ} {cl : Option Nat} {f : Int} {n : Nat}
    (h : realizar_venta s caller pid cantidad d i cl f n = .ok s') :
    ∃ pr dest, findProducto s pid = some pr ∧ ¬ pr.cantidad_actual < cantidad ∧
      resolverDestino s caller cl = .ok dest ∧
      s' = { s with
        productos := updateFirst Producto.id s.productos pr.id
          (fun x => { x with cantidad_actual := x.cantidad_actual - cantidad }),
        pedidos := s.pedidos ++
          [nuevoPedidoVenta pr cantidad (clampDescuento d) (resolverIva i) dest f n] } := by
  unfold realizar_venta at h
  split at h
  · cases h
  next pr hpr =>
    split at h
    · cases h
    next hstock =>
      split at h
      · cases h
      next dest hdest =>
        cases h
        exact ⟨pr, dest, hpr, hstock, hdest, rfl⟩

/-- The stock guard of `realizar_venta` (main.py lines 492-494). -/
theorem realizar_venta_stock_insuficiente {s : State} {caller : Usuario} {pid : Nat}
    {cantidad : Int} {d i : ℚ} {cl : Option Nat} {f : Int} {n : Nat} {pr : Producto}
    (hpr : findProducto s pid = some pr) (hlt : pr.cantidad_actual < cantidad) :
    realizar_venta s caller pid cantidad d i cl f n = .error .stockInsuficiente := by
  unfold realizar_venta
  rw [hpr]
  simp [hlt]

/-- The invariant stated over quantities: every product's stock and every
record's quantity is non-negative. -/
def cantidadesOk (s : State) : Prop :=
  (∀ pr ∈ s.productos, 0 ≤ pr.cantidad_actual) ∧ ∀ p ∈ s.pedidos, 0 ≤ p.cantidad

/-- A request is well-formed when a sale does not ask for a negative
quantity (main.py never validates this; the claim's scenarios only use
positive quantities). -/
def ventaNoNegativa : Op → Bool
  | .venta _ _ cantidad _ _ _ _ _ => decide (0 ≤ cantidad)
  | _ => true

theorem cantidadesOk_realizar_venta {s s' : State} {caller : Usuario} {pid : Nat}
    {cantidad : Int} {d i : ℚ} {cl : Option Nat} {f : Int} {n : Nat}
    (hs : cantidadesOk s) (hq : 0 ≤ cantidad)
    (h : realizar_venta s caller pid cantidad d i cl f n = .ok s') : cantidadesOk s' := by
  obtain ⟨pr, dest, hpr, hstock, _, rfl⟩ := realizar_venta_ok_inv h
  rcases findProducto_id hpr with ⟨hid, _⟩
  constructor
  · intro x hx
    have hfind : s.productos.find? (fun y => y.id == pr.id) = some pr := by
      unfold findProducto at hpr
      rw [hid]
      exact hpr
    rcases updateFirst_of_find_some Producto.id _ hfind x hx with h1 | h1
    · exact hs.1 x h1
    · rw [h1]
      simp only []
      omega
  · intro p hp
    rcases List.mem_append.mp hp with h1 | h1
    · exact hs.2 p h1
    · rcases List.mem_singleton.mp h1 with rfl
      simpa [nuevoPedidoVenta] using hq

theorem cantidadesOk_cancelar {s s' : State} {caller : Usuario} {pid : Nat}
    (hs : cantidadesOk s) (h : cancelar_reserva s caller pid = .ok s') : cantidadesOk s' := by
  unfold cancelar_reserva at h
  split at h
  · cases h
  next reserva hres =>
    split at h
    · cases h
    split at h
    · cases h
      rcases findPedido_id hres with ⟨_, hmem⟩
      have hrq : 0 ≤ reserva.cantidad := hs.2 reserva hmem
      constructor
      · intro x hx
        rcases mem_updateFirst Producto.id x hx with h1 | ⟨y, hy, rfl⟩
        · exact hs.1 x h1
        · have := hs.1 y hy
          simp only []
          omega
      · intro p hp
        rcases mem_updateFirst Pedido.id p hp with h1 | ⟨y, hy, rfl⟩
        · exact hs.2 p h1
        · exact hs.2 y hy
    · cases h
      exact hs

theorem cantidadesOk_entrega {s s' : State} {i : Nat}
    (hs : cantidadesOk s) (h : confirmar_entrega s i = .ok s') : cantidadesOk s' := by
  unfold confirmar_entrega at h
  split at h
  · cases h
  · cases h
    refine ⟨hs.1, ?_⟩
    intro p hp
    rcases mem_updateFirst Pedido.id p hp with h1 | ⟨y, hy, rfl⟩
    · exact hs.2 p h1
    · exact hs.2 y hy

theorem restaurarExpirados_nonneg {ps : List Producto} {rs : List Pedido}
    (hps : ∀ x ∈ ps, 0 ≤ x.cantidad_actual) (hrs : ∀ r ∈ rs, 0 ≤ r.cantidad) :
    ∀ x ∈ restaurarExpirados ps rs, 0 ≤ x.cantidad_actual := by
  induction rs generalizing ps with
  | nil => exact hps
  | cons r rest ih =>
    have hr : 0 ≤ r.cantidad := hrs r (List.mem_cons_self r rest)
    refine ih ?_ (fun q hq => hrs q (List.mem_cons_of_mem r hq))
    intro y hy
    rcases mem_updateFirst Producto.id y hy with h1 | ⟨z, hz, rfl⟩
    · exact hps y h1
    · have := hps z hz
      simp only []
      omega

theorem cantidadesOk_limpiar {s : State} {ahora : Int} (hs : cantidadesOk s) :
    cantidadesOk (limpiar_reservas_expiradas s ahora) := by
  constructor
  · exact restaurarExpirados_nonneg hs.1
      (fun r hr => hs.2 r (List.mem_of_mem_filter hr))
  · intro p hp
    unfold limpiar_reservas_expiradas at hp
    simp only [List.mem_map] at hp
    rcases hp with ⟨y, hy, rfl⟩
    split
    · exact hs.2 y hy
    · exact hs.2 y hy

theorem cantidadesOk_reabastecer {s s' : State} {cid pid : Nat} {c : Int} {f : Int} {n : Nat}
    (hs : cantidadesOk s) (h : reabastecer_producto s cid pid c f n = .ok s') :
    cantidadesOk s' := by
  unfold reabastecer_producto at h
  split at h
  · cases h
  next producto hpr =>
    split at h
    · cases h
    next hpos =>
      split at h
      · cases h
      · cases h
        constructor
        · intro x hx
          rcases mem_updateFirst Producto.id x hx with h1 | ⟨y, hy, rfl⟩
          · exact hs.1 x h1
          · have := hs.1 y hy
            simp only []
            omega
        · intro p hp
          rcases List.mem_append.mp hp with h1 | h1
          · exact hs.2 p h1
          · rcases List.mem_singleton.mp h1 with rfl
            simp only []
            omega

theorem cantidadesOk_editar {s s' : State} {i : Nat} {pc pv : ℚ} {c m : Int}
    (hs : cantidadesOk s) (h : editar_producto s i pc pv c m = .ok s') : cantidadesOk s' := by
  unfold editar_producto at h
  split at h
  · cases h
  · split at h
    · cases h
    next hcm =>
      split at h
      · cases h
      next hneg =>
        split at h
        · cases h
        · cases h
          refine ⟨?_, hs.2⟩
          intro x hx
          rcases mem_updateFirst Producto.id x hx with h1 | ⟨y, hy, rfl⟩
          · exact hs.1 x h1
          · simp only [not_or, not_lt] at hneg
            exact hneg.1

theorem cantidadesOk_applyOp {s : State} {op : Op}
    (hs : cantidadesOk s) (hop : ventaNoNegativa op) : cantidadesOk (applyOp s op) := by
  cases op with
  | venta caller pid c d i cl f n =>
    simp only [applyOp]
    rcases hv : realizar_venta s caller pid c d i cl f n with e | s2
    · simpa [commit] using hs
    · have hq : (0 : Int) ≤ c := by simpa [ventaNoNegativa] using hop
      exact (by simpa [commit] using cantidadesOk_realizar_venta hs hq hv)
  | cancelar caller pid =>
    simp only [applyOp]
    rcases hv : cancelar_reserva s caller pid with e | s2
    · simpa [commit] using hs
    · exact (by simpa [commit] using cantidadesOk_cancelar hs hv)
  | entrega i =>
    simp only [applyOp]
    rcases hv : confirmar_entrega s i with e | s2
    · simpa [commit] using hs
    · exact (by simpa [commit] using cantidadesOk_entrega hs hv)
  | limpiar ahora => exact cantidadesOk_limpiar hs
  | reabastecer cid pid c f n =>
    simp only [applyOp]
    rcases hv : reabastecer_producto s cid pid c f n with e | s2
    · simpa [commit] using hs
    · exact (by simpa [commit] using cantidadesOk_reabastecer hs hv)
  | editar i pc pv c m =>
    simp only [applyOp]
    rcases hv : editar_producto s i pc pv c m with e | s2
    · simpa [commit] using hs
    · exact (by simpa [commit] using cantidadesOk_editar hs hv)

theorem cantidadesOk_run {s : State} {ops : List Op}
    (hs : cantidadesOk s) (hops : ∀ op ∈ ops, ventaNoNegativa op) :
    cantidadesOk (run s ops) := by
  induction ops generalizing s with
  | nil => exact hs
  | cons op rest ih =>
    have h1 : cantidadesOk (applyOp s op) :=
      cantidadesOk_applyOp hs (hops op (List.mem_cons_self op rest))
    exact ih h1 (fun o ho => hops o (List.mem_cons_of_mem op ho))

/- ### Claim C1 -/

def adminC1 : Usuario := ⟨1, Rol.admin, true⟩

def productoC1 : Producto := ⟨1, 10, 121, 10, 10⟩

def estadoC1 : State := ⟨[adminC1], [productoC1], []⟩

def opsC1 : List Op :=
  [Op.venta adminC1 1 5 0 21 none 0 1,
   Op.reabastecer 1 1 5 1 2,
   Op.cancelar adminC1 1]

/-- C1 counterexample: starting from a committed state with one product at
`cantidad_actual = 10 = stock_maximo`, the committed sequence
create_sale(qty 5), restock(qty 5) (its guard looks only at the raw stock,
not at pending reservations), cancel(the pending sale) leaves the product
at `cantidad_actual = 15 > stock_maximo = 10`, so the claimed invariant
`0 ≤ current_quantity ≤ max_quantity` does not hold after every sequence
of committed core operations. -/
theorem stock_maximo_counterexample :
    (run estadoC1 opsC1).productos.map (fun pr => (pr.cantidad_actual, pr.stock_maximo))
      = [(15, 10)] ∧
    ¬ ∀ pr ∈ (run estadoC1 opsC1).productos,
        0 ≤ pr.cantidad_actual ∧ pr.cantidad_actual ≤ pr.stock_maximo := by
  decide

/-- C1 (amended): after any sequence of committed core operations
(create_sale, cancel, confirm_delivery, expire_stale_reservations,
restock, product edit) in which no sale requests a negative quantity,
every product still satisfies the lower bound `0 ≤ current_quantity`
(and every record keeps a non-negative quantity); the upper bound
`current_quantity ≤ max_quantity` is enforced only by the individual
guards of restock and edit and is not preserved by cancellation, as the
counterexample shows. -/
theorem run_stock_no_negativo (s : State) (ops : List Op)
    (hs : cantidadesOk s) (hops : ∀ op ∈ ops, ventaNoNegativa op) :
    ∀ pr ∈ (run s ops).productos, 0 ≤ pr.cantidad_actual :=
  (cantidadesOk_run hs hops).1

/-- C1 witness: the amended invariant applied to the concrete run of the
counterexample sequence. -/
theorem run_stock_no_negativo_witness :
    0 ≤ (Producto.mk 1 10 121 15 10).cantidad_actual :=
  run_stock_no_negativo estadoC1 opsC1 ⟨by decide, by decide⟩ (by decide)
    (Producto.mk 1 10 121 15 10) (by decide)

/- ### Claim C2 -/

/-- C2: when the product's current stock is strictly below the requested
quantity, create_sale fails with InsufficientStock and the committed state
is exactly the prior state: stock untouched and no record appended. -/
theorem venta_stock_insuficiente_sin_mutacion (s : State) (caller : Usuario)
    (pid : Nat) (cantidad : Int) (d i : ℚ) (cl : Option Nat) (f : Int) (n : Nat)
    (pr : Producto) (hpr : findProducto s pid = some pr)
    (hlt : pr.cantidad_actual < cantidad) :
    realizar_venta s caller pid cantidad d i cl f n = .error .stockInsuficiente ∧
    commit s (realizar_venta s caller pid cantidad d i cl f n) = s := by
  have h := @realizar_venta_stock_insuficiente s caller pid cantidad d i cl f n pr hpr hlt
  refine ⟨h, ?_⟩
  rw [h]
  rfl

def clienteC2 : Usuario := ⟨2, Rol.cliente, true⟩

def productoC2 : Producto := ⟨1, 10, 121, 5, 20⟩

def estadoC2 : State := ⟨[clienteC2], [productoC2], []⟩

/-- C2 witness: the spec scenario — stock 5, requested 6. -/
theorem venta_stock_insuficiente_witness :
    realizar_venta estadoC2 clienteC2 1 6 0 21 none 0 1 = .error .stockInsuficiente ∧
    commit estadoC2 (realizar_venta estadoC2 clienteC2 1 6 0 21 none 0 1) = estadoC2 :=
  venta_stock_insuficiente_sin_mutacion estadoC2 clienteC2 1 6 0 21 none 0 1 productoC2
    (by decide) (by decide)

/- ### Claim C3 -/

theorem resolverDestino_permitido {s : State} {caller : Usuario} {cl : Option Nat} {dest : Nat}
    (h : resolverDestino s caller cl = .ok dest) :
    ¬ (caller.rol ≠ Rol.admin ∧ dest ≠ caller.id) := by
  unfold resolverDestino at h
  split at h
  next hadm =>
    rintro ⟨hrol, _⟩
    exact hrol hadm
  next hadm =>
    cases h
    rintro ⟨_, hid⟩
    exact hid rfl

/-- Cancelling a freshly appended pending record: the exact resulting state. -/
theorem cancelar_nuevo (s : State) (P : List Producto) (caller : Usuario) (nuevo : Pedido)
    (hfresh : ∀ p ∈ s.pedidos, p.id ≠ nuevo.id)
    (hperm : ¬ (caller.rol ≠ Rol.admin ∧ nuevo.usuario_id ≠ caller.id))
    (hpend : nuevo.estado = Estado.pendiente) :
    cancelar_reserva ⟨s.usuarios, P, s.pedidos ++ [nuevo]⟩ caller nuevo.id
      = .ok ⟨s.usuarios,
          updateFirst Producto.id P nuevo.producto_id
            (fun x => { x with cantidad_actual := x.cantidad_actual + nuevo.cantidad }),
          s.pedidos ++ [{ nuevo with estado := Estado.cancelado }]⟩ := by
  have hfind : findPedido ⟨s.usuarios, P, s.pedidos ++ [nuevo]⟩ nuevo.id = some nuevo := by
    show (s.pedidos ++ [nuevo]).find? (fun p => p.id == nuevo.id) = some nuevo
    rw [find?_append_of_none (fun p hp => by simpa using hfresh p hp)]
    simp [List.find?_cons]
  unfold cancelar_reserva
  simp only [hfind]
  rw [if_neg hperm, if_pos hpend]
  have hped : updateFirst Pedido.id (s.pedidos ++ [nuevo]) nuevo.id
      (fun p => { p with estado := Estado.cancelado })
      = s.pedidos ++ [{ nuevo with estado := Estado.cancelado }] := by
    rw [updateFirst_append_right Pedido.id _ hfresh]
    simp [updateFirst]
  rw [hped]

/-- C3: a successful create_sale of quantity q, followed by a cancel of the
new record (here by the same requester, who is always permitted: an admin
by role, a client as the owner) while it is still pending, restores the
product table exactly to its pre-sale contents and marks the record
'cancelado'. -/
theorem venta_luego_cancelar_restaura (s s' : State) (caller : Usuario) (pid : Nat)
    (cantidad : Int) (d i : ℚ) (cl : Option Nat) (f : Int) (n : Nat)
    (hok : realizar_venta s caller pid cantidad d i cl f n = .ok s')
    (hfresh : ∀ p ∈ s.pedidos, p.id ≠ n) :
    ∃ s2, cancelar_reserva s' caller n = .ok s2
      ∧ s2.productos = s.productos ∧ s2.usuarios = s.usuarios
      ∧ ∃ p, findPedido s2 n = some p ∧ p.estado = Estado.cancelado
          ∧ p.cantidad = cantidad ∧ p.producto_id = pid := by
  obtain ⟨pr, dest, hpr, hstock, hdest, rfl⟩ := realizar_venta_ok_inv hok
  rcases findProducto_id hpr with ⟨hid, _⟩
  have hperm := resolverDestino_permitido hdest
  have hcan := cancelar_nuevo s
    (updateFirst Producto.id s.productos pr.id
      (fun x => { x with cantidad_actual := x.cantidad_actual - cantidad }))
    caller
    (nuevoPedidoVenta pr cantidad (clampDescuento d) (resolverIva i) dest f n)
    hfresh hperm rfl
  refine ⟨_, hcan, ?_, rfl, ?_⟩
  · show updateFirst Producto.id
      (updateFirst Producto.id s.productos pr.id
        (fun x => { x with cantidad_actual := x.cantidad_actual - cantidad }))
      pr.id (fun x => { x with cantidad_actual := x.cantidad_actual + cantidad })
      = s.productos
    rw [@updateFirst_updateFirst Producto Producto.id s.productos pr.id
      (fun x => { x with cantidad_actual := x.cantidad_actual - cantidad })
      (fun x => { x with cantidad_actual := x.cantidad_actual + cantidad })
      (fun x => rfl)]
    show updateFirst Producto.id s.productos pr.id
      (fun x => { x with cantidad_actual := x.cantidad_actual - cantidad + cantidad })
      = s.productos
    have hcomp : (fun x : Producto =>
        { x with cantidad_actual := x.cantidad_actual - cantidad + cantidad })
        = (fun x : Producto => x) := by
      funext x
      rw [Int.sub_add_cancel]
    rw [hcomp, updateFirst_id]
  · refine ⟨{ nuevoPedidoVenta pr cantidad (clampDescuento d) (resolverIva i) dest f n with
        estado := Estado.cancelado }, ?_, rfl, rfl, hid⟩
    show (s.pedidos ++
        [{ nuevoPedidoVenta pr cantidad (clampDescuento d) (resolverIva i) dest f n with
           estado := Estado.cancelado }]).find? (fun p => p.id == n)
      = some { nuevoPedidoVenta pr cantidad (clampDescuento d) (resolverIva i) dest f n with
           estado := Estado.cancelado }
    rw [find?_append_of_none (fun p hp => by simpa using hfresh p hp)]
    simp [List.find?_cons, nuevoPedidoVenta]

def clienteC3 : Usuario := ⟨2, Rol.cliente, true⟩

def productoC3 : Producto := ⟨1, 10, 121, 10, 20⟩

def estadoC3 : State := ⟨[clienteC3], [productoC3], []⟩

def estadoC3v : State :=
  ⟨[clienteC3], [⟨1, 10, 121, 5, 20⟩],
   [⟨1, 0, 5, 10, 121, 605, 0, 21, Tipo.venta, Estado.pendiente, 2, 1⟩]⟩

/-- C3 witness: the conservation round-trip at the spec scenario
(stock 10, sale of 5, then cancel). -/
theorem venta_luego_cancelar_restaura_witness :
    ∃ s2, cancelar_reserva estadoC3v clienteC3 1 = .ok s2
      ∧ s2.productos = estadoC3.productos ∧ s2.usuarios = estadoC3.usuarios
      ∧ ∃ p, findPedido s2 1 = some p ∧ p.estado = Estado.cancelado
          ∧ p.cantidad = 5 ∧ p.producto_id = 1 :=
  venta_luego_cancelar_restaura estadoC3 estadoC3v clienteC3 1 5 0 21 none 0 1
    (by
      simp [realizar_venta, findProducto, estadoC3, estadoC3v, productoC3, clienteC3,
        List.find?, resolverDestino, esClienteValido, nuevoPedidoVenta, precioConNuevoIva,
        clampDescuento, resolverIva, IVA_DEFECTO, updateFirst]
      norm_num)
    (by decide)

/- ### Claim C4 -/

/-- The total expired quantity attributed to one product id. -/
def sumExpirados (rs : List Pedido) (pid : Nat) : Int :=
  ((rs.filter (fun r => r.producto_id == pid)).map Pedido.cantidad).sum

theorem sumExpirados_nil (pid : Nat) : sumExpirados [] pid = 0 := rfl

theorem sumExpirados_cons (r : Pedido) (rs : List Pedido) (pid : Nat) :
    sumExpirados (r :: rs) pid
      = (if r.producto_id = pid then r.cantidad else 0) + sumExpirados rs pid := by
  by_cases h : r.producto_id = pid
  · simp [sumExpirados, List.filter_cons, h]
  · simp [sumExpirados, List.filter_cons, h]

theorem restaurarExpirados_cons (ps : List Producto) (r : Pedido) (rs : List Pedido) :
    restaurarExpirados ps (r :: rs)
      = restaurarExpirados (updateFirst Producto.id ps r.producto_id
          (fun x => { x with cantidad_actual := x.cantidad_actual + r.cantidad })) rs := rfl

/-- With distinct product ids (a primary-key fact), restoring the expired
reservations adds, to each product, the summed quantity of the expired
records that reference it. -/
theorem restaurarExpirados_eq_map {ps : List Producto} {rs : List Pedido}
    (hnd : (ps.map Producto.id).Nodup) :
    restaurarExpirados ps rs
      = ps.map (fun x =>
          { x with cantidad_actual := x.cantidad_actual + sumExpirados rs x.id }) := by
  induction rs generalizing ps with
  | nil =>
    refine (map_eq_self_of ?_).symm
    intro x hx
    simp [sumExpirados_nil]
  | cons r rest ih =>
    rw [restaurarExpirados_cons, updateFirst_eq_map_of_nodup Producto.id hnd]
    have hnd2 : ((ps.map fun x => if x.id = r.producto_id
        then { x with cantidad_actual := x.cantidad_actual + r.cantidad } else x).map
          Producto.id).Nodup := by
      rw [List.map_map]
      have hkey : (Producto.id ∘ fun x => if x.id = r.producto_id
          then { x with cantidad_actual := x.cantidad_actual + r.cantidad } else x)
          = Producto.id := by
        funext x
        by_cases h : x.id = r.producto_id <;> simp [h]
      rw [hkey]
      exact hnd
    rw [ih hnd2, List.map_map]
    congr 1
    funext x
    by_cases h : x.id = r.producto_id
    · simp [h, sumExpirados_cons, add_assoc]
    · have h2 : ¬ r.producto_id = x.id := fun hh => h hh.symm
      simp [h, h2, sumExpirados_cons]

/-- A sweep over a state with no expired pending sales changes nothing. -/
theorem limpiar_sin_expirados {s : State} {ahora : Int}
    (h : ∀ p ∈ s.pedidos, expirado (limiteExpiracion ahora) p = false) :
    limpiar_reservas_expiradas s ahora = s := by
  unfold limpiar_reservas_expiradas
  rw [filter_eq_nil_of h]
  have hmap : s.pedidos.map (fun p => if expirado (limiteExpiracion ahora) p
      then { p with estado := Estado.cancelado } else p) = s.pedidos := by
    refine map_eq_self_of ?_
    intro p hp
    rw [if_neg (by simp [h p hp])]
  rw [hmap]
  rfl

theorem limpiar_idempotente (s : State) (ahora : Int) :
    limpiar_reservas_expiradas (limpiar_reservas_expiradas s ahora) ahora
      = limpiar_reservas_expiradas s ahora := by
  apply limpiar_sin_expirados
  intro p hp
  rcases List.mem_map.mp hp with ⟨y, hy, rfl⟩
  by_cases h : expirado (limiteExpiracion ahora) y = true
  · simp only [if_pos h]
    simp [expirado]
  · simp only [Bool.not_eq_true] at h
    rw [if_neg (by simp [h])]
    exact h

/-- C4: the expiry sweep cancels exactly the pending sale-kind records
with a timestamp older than the 48-hour cutoff (every other record is
untouched), credits each product with the summed quantity of its expired
records, and running the sweep twice in succession (same clock reading)
equals running it once. -/
theorem limpiar_spec (s : State) (ahora : Int)
    (hnd : (s.productos.map Producto.id).Nodup) :
    (limpiar_reservas_expiradas s ahora).pedidos
      = s.pedidos.map (fun p => if expirado (limiteExpiracion ahora) p
          then { p with estado := Estado.cancelado } else p)
    ∧ (limpiar_reservas_expiradas s ahora).productos
      = s.productos.map (fun x =>
          { x with cantidad_actual := x.cantidad_actual
              + sumExpirados (s.pedidos.filter (expirado (limiteExpiracion ahora))) x.id })
    ∧ limpiar_reservas_expiradas (limpiar_reservas_expiradas s ahora) ahora
      = limpiar_reservas_expiradas s ahora :=
  ⟨rfl, restaurarExpirados_eq_map hnd, limpiar_idempotente s ahora⟩

def clienteC4 : Usuario := ⟨2, Rol.cliente, true⟩

def estadoC4 : State :=
  ⟨[clienteC4], [⟨1, 10, 121, 5, 20⟩],
   [⟨1, 0, 5, 10, 121, 605, 0, 21, Tipo.venta, Estado.pendiente, 2, 1⟩]⟩

/-- C4 witness: the sweep at 48 hours plus one minute after the pending
sale's timestamp is idempotent on the concrete state. -/
theorem limpiar_spec_witness :
    limpiar_reservas_expiradas (limpiar_reservas_expiradas estadoC4 172860) 172860
      = limpiar_reservas_expiradas estadoC4 172860 :=
  (limpiar_spec estadoC4 172860 (by decide)).2.2

/- ### Claim C5 -/

def adminC5 : Usuario := ⟨1, Rol.admin, true⟩

def pedidoC5 : Pedido := ⟨1, 0, 1, 10, 121, 121, 0, 21, Tipo.venta, Estado.cancelado, 1, 1⟩

def estadoC5 : State := ⟨[adminC5], [⟨1, 10, 121, 5, 10⟩], [pedidoC5]⟩

/-- C5 counterexample: a sale record already in the terminal state
'cancelado' is changed again by confirm_delivery (main.py 808-817 sets
estado unconditionally), so a terminal state is not stable under
subsequent operations. -/
theorem estado_terminal_counterexample :
    estadoC5.pedidos.map Pedido.estado = [Estado.cancelado]
    ∧ (commit estadoC5 (confirmar_entrega estadoC5 1)).pedidos.map Pedido.estado
        = [Estado.completado] := by
  decide

/-- C5 (amended): once a sale record is terminal, cancel never changes it
(silent no-op, or a permission error) and the expiry sweep never selects
it; confirm_delivery, however, re-marks ANY existing record 'completado',
terminal or not, so terminal states are stable only under cancel and
expiry. -/
theorem estado_terminal_estable (s : State) (caller : Usuario) (i : Nat) (limite : Int)
    (p : Pedido) (hp : findPedido s i = some p) (hterm : p.estado ≠ Estado.pendiente) :
    (cancelar_reserva s caller i = .ok s ∨
      cancelar_reserva s caller i = .error Err.permisoDenegado)
    ∧ (∀ q ∈ s.pedidos, q.estado ≠ Estado.pendiente →
        (if expirado limite q then { q with estado := Estado.cancelado } else q) = q)
    ∧ confirmar_entrega s i = .ok { s with
        pedidos := updateFirst Pedido.id s.pedidos i
          (fun q => { q with estado := Estado.completado }) } := by
  refine ⟨?_, ?_, ?_⟩
  · unfold cancelar_reserva
    simp only [hp]
    by_cases hperm : caller.rol ≠ Rol.admin ∧ p.usuario_id ≠ caller.id
    · rw [if_pos hperm]
      exact Or.inr rfl
    · rw [if_neg hperm, if_neg hterm]
      exact Or.inl rfl
  · intro q hq hqterm
    rw [if_neg (by simp [expirado, hqterm])]
  · unfold confirmar_entrega
    simp only [hp]

/-- C5 witness: the amended stability statement at the concrete cancelled
record of the counterexample state. -/
theorem estado_terminal_estable_witness :
    cancelar_reserva estadoC5 adminC5 1 = .ok estadoC5 ∨
      cancelar_reserva estadoC5 adminC5 1 = .error Err.permisoDenegado :=
  (estado_terminal_estable estadoC5 adminC5 1 0 pedidoC5 (by decide) (by decide)).1

/- ### Claim C6 -/

def adminC6 : Usuario := ⟨1, Rol.admin, true⟩

def pedidoC6 : Pedido := ⟨1, 0, 3, 10, 121, 0, 0, 21, Tipo.compra, Estado.pendiente, 1, 1⟩

def estadoC6 : State := ⟨[adminC6], [⟨1, 10, 121, 5, 10⟩], [pedidoC6]⟩

/-- C6 counterexample: id 1 resolves to a purchase-kind record, not a
pending sale, so the claim demands a NotFound failure; instead
confirm_delivery succeeds and re-marks the purchase 'completado'. -/
theorem confirmar_entrega_counterexample :
    estadoC6.pedidos.map (fun p => (p.tipo, p.estado)) = [(Tipo.compra, Estado.pendiente)]
    ∧ confirmar_entrega estadoC6 1 ≠ .error Err.notFound
    ∧ (commit estadoC6 (confirmar_entrega estadoC6 1)).pedidos.map
        (fun p => (p.tipo, p.estado)) = [(Tipo.compra, Estado.completado)] := by
  decide

/-- C6 (amended): confirm_delivery fails with NotFound exactly when no
record with the given id exists at all; whenever the id exists — whatever
the record's kind or state — it marks that record 'completado' and changes
nothing else (no stock change, no user change). -/
theorem confirmar_entrega_spec (s : State) (i : Nat) :
    (findPedido s i = none → confirmar_entrega s i = .error Err.notFound)
    ∧ (∀ p, findPedido s i = some p →
        confirmar_entrega s i = .ok { s with
          pedidos := updateFirst Pedido.id s.pedidos i
            (fun q => { q with estado := Estado.completado }) })
    ∧ ∀ s2, confirmar_entrega s i = .ok s2 →
        s2.productos = s.productos ∧ s2.usuarios = s.usuarios := by
  refine ⟨?_, ?_, ?_⟩
  · intro h
    unfold confirmar_entrega
    simp only [h]
  · intro p hp
    unfold confirmar_entrega
    simp only [hp]
  · intro s2 h
    unfold confirmar_entrega at h
    split at h
    · cases h
    · cases h
      exact ⟨rfl, rfl⟩

/-- C6 witness: a missing id yields NotFound; applied at the concrete
state with no record of id 2. -/
theorem confirmar_entrega_spec_witness :
    confirmar_entrega estadoC6 2 = .error Err.notFound :=
  (confirmar_entrega_spec estadoC6 2).1 (by decide)

/- ### Claim C7 -/

/-- Modelled from the claim's words (no such rounding exists in main.py):
round to two decimal places. -/
def round2 (x : ℚ) : ℚ := (round (x * 100) : ℤ) / 100

/-- Modelled from the claim's words: the unit-price pipeline with 2-decimal
rounding after each step (strip default tax, apply new tax, apply
discount). -/
def precioUnitarioRedondeado (pv iva desc : ℚ) : ℚ :=
  round2 (round2 (round2 (pv / (1 + IVA_DEFECTO / 100)) * (1 + iva / 100)) * (1 - desc / 100))

def clienteC7 : Usuario := ⟨2, Rol.cliente, true⟩

def productoC7 : Producto := ⟨1, 1, 1, 10, 10⟩

def estadoC7 : State := ⟨[clienteC7], [productoC7], []⟩

def productoC7b : Producto := ⟨1, 10, 121, 10, 10⟩

def estadoC7b : State := ⟨[clienteC7], [productoC7b], []⟩

/-- C7 counterexample: with precio_venta = 1, tax 10, discount 0 the code
persists the unit price 10/11 = 0.9090..., not the value 0.91 of the
claimed round-after-each-step pipeline (there is no rounding in main.py
507-510); and with tax 21, discount 50 the code persists the pre-discount
unit price 121 where the claimed pipeline (discount folded into the unit
price) yields 60.5. -/
theorem precio_redondeo_counterexample :
    Except.map (fun s2 => s2.pedidos.map Pedido.precio_unidad_venta)
        (realizar_venta estadoC7 clienteC7 1 1 0 10 none 0 1) = .ok [10/11]
    ∧ precioUnitarioRedondeado 1 10 0 = 91/100
    ∧ (10/11 : ℚ) ≠ 91/100
    ∧ Except.map (fun s2 => s2.pedidos.map Pedido.precio_unidad_venta)
        (realizar_venta estadoC7b clienteC7 1 1 50 21 none 0 1) = .ok [121]
    ∧ precioUnitarioRedondeado 121 21 50 = 121/2
    ∧ (121 : ℚ) ≠ 121/2 := by
  refine ⟨?_, ?_, by norm_num, ?_, ?_, by norm_num⟩
  · simp [realizar_venta, findProducto, estadoC7, productoC7, clienteC7, List.find?,
      resolverDestino, esClienteValido, nuevoPedidoVenta, precioConNuevoIva,
      clampDescuento, resolverIva, IVA_DEFECTO, updateFirst, Except.map]
    norm_num
  · norm_num [precioUnitarioRedondeado, round2, round_eq, IVA_DEFECTO]
  · simp [realizar_venta, findProducto, estadoC7b, productoC7b, clienteC7, List.find?,
      resolverDestino, esClienteValido, nuevoPedidoVenta, precioConNuevoIva,
      clampDescuento, resolverIva, IVA_DEFECTO, updateFirst, Except.map]
    norm_num
  · norm_num [precioUnitarioRedondeado, round2, round_eq, IVA_DEFECTO]

/-- C7 (amended): create_sale performs NO intermediate rounding. The
persisted unit sale price is exactly
precio_venta/(1+21/100)*(1+tax_pct/100) — the discount is not folded into
the persisted unit price — and the total is that unit price times
(1-discount_pct/100) times the quantity. In the spec scenario
(precio_venta=121, tax 10, discount 0, quantity 1) both values are exactly
110, as the witness shows. -/
theorem precio_venta_sin_redondeo (s s' : State) (caller : Usuario) (pid : Nat)
    (cantidad : Int) (d i : ℚ) (cl : Option Nat) (f : Int) (n : Nat)
    (hok : realizar_venta s caller pid cantidad d i cl f n = .ok s') :
    ∃ pr p, findProducto s pid = some pr ∧ s'.pedidos = s.pedidos ++ [p]
      ∧ p.precio_unidad_venta = precioConNuevoIva pr.precio_venta (resolverIva i)
      ∧ p.total_venta = precioConNuevoIva pr.precio_venta (resolverIva i)
          * (1 - clampDescuento d / 100) * (cantidad : ℚ)
      ∧ p.descuento_aplicado = clampDescuento d
      ∧ p.iva_aplicado = resolverIva i := by
  obtain ⟨pr, dest, hpr, _, _, rfl⟩ := realizar_venta_ok_inv hok
  exact ⟨pr, _, hpr, rfl, rfl, rfl, rfl, rfl⟩

def estadoC7v : State :=
  ⟨[clienteC7], [⟨1, 10, 121, 9, 10⟩],
   [⟨1, 0, 1, 10, 110, 110, 0, 10, Tipo.venta, Estado.pendiente, 2, 1⟩]⟩

/-- C7 witness: the spec scenario — precio_venta 121, tax 10, discount 0,
quantity 1 — where the persisted unit price and total are both exactly
110 (see the pedido of `estadoC7v`). -/
theorem precio_venta_sin_redondeo_witness :
    ∃ pr p, findProducto estadoC7b 1 = some pr
      ∧ estadoC7v.pedidos = estadoC7b.pedidos ++ [p]
      ∧ p.precio_unidad_venta = precioConNuevoIva pr.precio_venta (resolverIva 10)
      ∧ p.total_venta = precioConNuevoIva pr.precio_venta (resolverIva 10)
          * (1 - clampDescuento 0 / 100) * ((1 : Int) : ℚ)
      ∧ p.descuento_aplicado = clampDescuento 0
      ∧ p.iva_aplicado = resolverIva 10 :=
  precio_venta_sin_redondeo estadoC7b estadoC7v clienteC7 1 1 0 10 none 0 1
    (by
      simp [realizar_venta, findProducto, estadoC7b, estadoC7v, productoC7b, clienteC7,
        List.find?, resolverDestino, esClienteValido, nuevoPedidoVenta, precioConNuevoIva,
        clampDescuento, resolverIva, IVA_DEFECTO, updateFirst]
      norm_num)

/- ### Claim C8 -/

theorem find?_updateFirst {α : Type} (key : α → Nat) {l : List α} {k : Nat} {f : α → α}
    {a : α} (hf : ∀ x, key (f x) = key x)
    (h : l.find? (fun x => key x == k) = some a) :
    (updateFirst key l k f).find? (fun x => key x == k) = some (f a) := by
  induction l with
  | nil => cases h
  | cons b rest ih =>
    rw [List.find?_cons] at h
    rcases hb : (key b == k) with _ | _
    · rw [hb] at h
      have hkb : ¬ key b = k := by simpa using hb
      simp only [updateFirst, if_neg hkb, List.find?_cons, hb]
      exact ih h
    · rw [hb] at h
      have hba : b = a := Option.some.inj h
      subst hba
      have hkb : key b = k := by simpa using hb
      have hfb : (key (f b) == k) = true := by simp [hf, hkb]
      simp only [updateFirst, if_pos hkb, List.find?_cons, hfb]

def adminC8 : Usuario := ⟨1, Rol.admin, true⟩

def estadoC8 : State := ⟨[adminC8], [⟨1, 10, 121, 5, 10⟩], []⟩

/-- The state after the committed restock of 3 units (record id 7). -/
def estadoC8r : State :=
  ⟨[adminC8], [⟨1, 10, 121, 8, 10⟩],
   [⟨7, 0, 3, 10, 121, 0, 0, 21, Tipo.compra, Estado.pendiente, 1, 1⟩]⟩

/-- C8: purchase records carry the models.py default estado 'pendiente'
when created by restock or initial product creation — the claim's
completed-equivalent-no-pending-phase description is wrong — and one of
them can even be cancelled (counterexample). -/
theorem compra_pendiente_counterexample :
    (commit estadoC8 (reabastecer_producto estadoC8 1 1 3 0 7)).pedidos.map
        (fun p => (p.tipo, p.estado)) = [(Tipo.compra, Estado.pendiente)]
    ∧ (commit estadoC8r (cancelar_reserva estadoC8r adminC8 7)).pedidos.map
        (fun p => (p.tipo, p.estado)) = [(Tipo.compra, Estado.cancelado)] := by
  decide

/-- C8 (amended): purchase records are created with the default state
'pendiente' (by restock and by initial product creation alike); the expiry
sweep never selects them (its filter keeps only sale-kind records), but an
explicit cancel of a pending purchase record by an admin does mark it
'cancelado'. -/
theorem compra_pendiente_spec (s : State) (caller : Usuario) (cid pid : Nat) (c : Int)
    (f : Int) (n : Nat) (i : Nat) (limite : Int) :
    (∀ s2, reabastecer_producto s cid pid c f n = .ok s2 →
      ∃ p, s2.pedidos = s.pedidos ++ [p] ∧ p.tipo = Tipo.compra
        ∧ p.estado = Estado.pendiente)
    ∧ (∀ pc pv iva : ℚ, ∀ si mx : Int, ∀ prodId pedId : Nat, ∀ f2 : Int, ∀ s2,
        0 < si → nuevo_producto s cid pc pv iva si mx prodId pedId f2 = .ok s2 →
        ∃ p, s2.pedidos = s.pedidos ++ [p] ∧ p.tipo = Tipo.compra
          ∧ p.estado = Estado.pendiente)
    ∧ (∀ q : Pedido, q.tipo = Tipo.compra → expirado limite q = false)
    ∧ (∀ p, findPedido s i = some p → p.tipo = Tipo.compra →
        p.estado = Estado.pendiente → caller.rol = Rol.admin →
        ∃ s2, cancelar_reserva s caller i = .ok s2
          ∧ findPedido s2 i = some { p with estado := Estado.cancelado }) := by
  refine ⟨?_, ?_, ?_, ?_⟩
  · intro s2 h
    unfold reabastecer_producto at h
    split at h
    · cases h
    · split at h
      · cases h
      · split at h
        · cases h
        · cases h
          exact ⟨_, rfl, rfl, rfl⟩
  · intro pc pv iva si mx prodId pedId f2 s2 hsi h
    unfold nuevo_producto at h
    rw [if_pos hsi] at h
    split at h
    · cases h
    · split at h
      · cases h
      · split at h
        · cases h
        · split at h
          · cases h
          · cases h
            exact ⟨_, rfl, rfl, rfl⟩
  · intro q hq
    simp [expirado, hq]
  · intro p hp htipo hpend hadm
    unfold cancelar_reserva
    simp only [hp]
    rw [if_neg (by rintro ⟨hrol, _⟩; exact hrol hadm), if_pos hpend]
    refine ⟨_, rfl, ?_⟩
    rcases findPedido_id hp with ⟨hid, _⟩
    show (updateFirst Pedido.id s.pedidos i
        (fun q => { q with estado := Estado.cancelado })).find? (fun q => q.id == i)
      = some { p with estado := Estado.cancelado }
    exact find?_updateFirst Pedido.id (fun x => rfl) hp

/-- C8 witness: restock appends a pending purchase record to the concrete
state, and an admin cancel then marks it cancelled. -/
theorem compra_pendiente_spec_witness :
    ∃ p, estadoC8r.pedidos = estadoC8.pedidos ++ [p] ∧ p.tipo = Tipo.compra
      ∧ p.estado = Estado.pendiente :=
  (compra_pendiente_spec estadoC8 adminC8 1 1 3 0 7 7 0).1 estadoC8r (by decide)

/- ### Claim C9 -/

/-- C9: one checkout cart line performs exactly the state change of a
create_sale call for that product and quantity with the default tax (21)
and zero discount: identical stock re-validation, identical decrement and
an identical persisted pending sale record (in exact arithmetic the
catalog price equals precio_venta/(1+21/100)*(1+21/100)), for any caller
whose id matches the session user. -/
theorem carrito_linea_equivale_venta (s : State) (caller : Usuario) (pid : Nat)
    (cantidad : Int) (f : Int) (n : Nat) (pr : Producto)
    (hpr : findProducto s pid = some pr) :
    confirmar_linea s caller.id pid cantidad f n
      = realizar_venta s caller pid cantidad 0 21 none f n := by
  unfold confirmar_linea realizar_venta
  rw [hpr]
  by_cases hst : pr.cantidad_actual < cantidad
  · simp [hst]
  · have hdest : resolverDestino s caller none = .ok caller.id := by
      unfold resolverDestino
      by_cases hr : caller.rol = Rol.admin <;> simp [hr]
    simp only [if_neg hst, hdest]
    have hiva : resolverIva 21 = 21 := by norm_num [resolverIva]
    have hdesc : clampDescuento 0 = 0 := by norm_num [clampDescuento]
    have hpv : precioConNuevoIva pr.precio_venta 21 = pr.precio_venta := by
      unfold precioConNuevoIva IVA_DEFECTO
      rw [div_mul_cancel₀]
      norm_num
    simp [nuevoPedidoVenta, hiva, hdesc, hpv, IVA_DEFECTO]

def clienteC9 : Usuario := ⟨2, Rol.cliente, true⟩

def productoC9 : Producto := ⟨1, 10, 121, 10, 20⟩

def estadoC9 : State := ⟨[clienteC9], [productoC9], []⟩

/-- C9 witness: a concrete cart line of 4 units equals the corresponding
create_sale call. -/
theorem carrito_linea_equivale_venta_witness :
    confirmar_linea estadoC9 clienteC9.id 1 4 0 1
      = realizar_venta estadoC9 clienteC9 1 4 0 21 none 0 1 :=
  carrito_linea_equivale_venta estadoC9 clienteC9 1 4 0 1 productoC9 (by decide)

/- ### Claim C10 -/

/-- C10: a successful create_sale by a non-admin caller always books the
new pending record on the caller themself; and when an admin names a
target client id that does not resolve to an existing, active, client-role
user, the call fails and the committed state is the prior state. -/
theorem venta_destino_spec (s : State) (caller : Usuario) (pid : Nat) (cantidad : Int)
    (d i : ℚ) (cl : Option Nat) (f : Int) (n : Nat) :
    (caller.rol ≠ Rol.admin → ∀ s2, realizar_venta s caller pid cantidad d i cl f n = .ok s2 →
      ∃ p, s2.pedidos = s.pedidos ++ [p] ∧ p.usuario_id = caller.id)
    ∧ (∀ cid, cl = some cid → caller.rol = Rol.admin → esClienteValido s cid = false →
      (∃ e, realizar_venta s caller pid cantidad d i cl f n = .error e)
      ∧ commit s (realizar_venta s caller pid cantidad d i cl f n) = s) := by
  constructor
  · intro hrol s2 hok
    obtain ⟨pr, dest, hpr, _, hdest, rfl⟩ := realizar_venta_ok_inv hok
    have hdid : dest = caller.id := by
      unfold resolverDestino at hdest
      rw [if_neg hrol] at hdest
      exact (Except.ok.inj hdest).symm
    exact ⟨_, rfl, hdid.symm ▸ rfl⟩
  · rintro cid rfl hadm hval
    have herr : ∃ e, realizar_venta s caller pid cantidad d i (some cid) f n = .error e := by
      rcases hfp : findProducto s pid with _ | pr
      · refine ⟨.notFound, ?_⟩
        unfold realizar_venta
        simp only [hfp]
      · by_cases hst : pr.cantidad_actual < cantidad
        · exact ⟨.stockInsuficiente, realizar_venta_stock_insuficiente hfp hst⟩
        · have hdest : resolverDestino s caller (some cid) = .error .clienteNoValido := by
            unfold resolverDestino
            rw [if_pos hadm]
            simp [hval]
          refine ⟨.clienteNoValido, ?_⟩
          unfold realizar_venta
          simp only [hfp, if_neg hst, hdest]
    rcases herr with ⟨e, he⟩
    exact ⟨⟨e, he⟩, by rw [he]; rfl⟩

def clienteC10 : Usuario := ⟨2, Rol.cliente, true⟩

def adminC10 : Usuario := ⟨1, Rol.admin, true⟩

def estadoC10 : State := ⟨[adminC10, clienteC10], [⟨1, 10, 121, 10, 20⟩], []⟩

def estadoC10v : State :=
  ⟨[adminC10, clienteC10], [⟨1, 10, 121, 9, 20⟩],
   [⟨5, 0, 1, 10, 121, 121, 0, 21, Tipo.venta, Estado.pendiente, 2, 1⟩]⟩

/-- C10 witness: the client's own sale is booked on the client, and an
admin sale towards the nonexistent client id 99 fails. -/
theorem venta_destino_spec_witness :
    (∃ p, estadoC10v.pedidos = estadoC10.pedidos ++ [p] ∧ p.usuario_id = clienteC10.id)
    ∧ ∃ e, realizar_venta estadoC10 adminC10 1 1 0 21 (some 99) 0 5 = .error e := by
  constructor
  · exact (venta_destino_spec estadoC10 clienteC10 1 1 0 21 none 0 5).1 (by decide)
      estadoC10v
      (by
        simp [realizar_venta, findProducto, estadoC10, estadoC10v, clienteC10, adminC10,
          List.find?, resolverDestino, esClienteValido, nuevoPedidoVenta, precioConNuevoIva,
          clampDescuento, resolverIva, IVA_DEFECTO, updateFirst]
        norm_num)
  · exact ((venta_destino_spec estadoC10 adminC10 1 1 0 21 (some 99) 0 5).2 99 rfl
      (by decide) (by decide)).1

end Suministros
